import Mathlib

set_option maxRecDepth 8000

/-!
Verification of the `FutureRawRwLock` adapter (src/src/rwlock/mod.rs).

The adapter wraps a raw reader/writer lock primitive and adds a
spinlock-guarded, lazily created FIFO queue of wakers that is used to
resume suspended tasks when the lock is released.

We give a shallow embedding of the adapter:
- `AdapterState` mirrors the struct `FutureRawRwLock` (fields `locking`,
  `wakers`, `inner`).  The `AtomicPtr<SegQueue<Waker>>` is modelled as
  `Option (List Waker)` (`none` is the null pointer; the list is the FIFO
  contents, head = pop end, tail = push end).
- The inner primitive is an abstract collaborator `RawRwLockOps`,
  mirroring the `R : RawRwLock` type parameter.
- Each operation returns, besides its result, a `List Event` trace of the
  atomic actions it performed, in program order, so that ordering claims
  (for example where a waker invocation happens relative to spinlock
  release) can be stated.
- Undefined behaviour (dereferencing the null queue pointer) and
  nontermination (the spinlock CAS loop entered while the flag is already
  set, which in a purely sequential run can never terminate) surface as
  `Except` errors.

Concurrency-sensitive facts (the creation race of the queue, and the
missed-wakeup race between registration and release) are modelled by
dedicated small-step interleaving models further below.
-/

/-- Wakers are opaque clonable handles; modelled as natural-number ids. -/
abbrev Waker := Nat

/-- Atomic actions performed by the adapter, recorded in program order. -/
inductive Event
  | spinAcquire
  | spinRelease
  | pushWaker (w : Waker)
  | popWaker (w : Waker)
  | popEmpty
  | invokeWaker (w : Waker)
  | innerLockShared
  | innerTryLockShared (r : Bool)
  | innerUnlockShared
  | innerLockExclusive
  | innerTryLockExclusive (r : Bool)
  | innerUnlockExclusive
  deriving DecidableEq, Repr

/-- Outcomes with no defined result: dereferencing the null `wakers`
pointer, or entering the spinlock CAS loop with the flag already set
(which, run sequentially, spins forever). -/
inductive Err
  | nullDeref
  | spinDiverge
  deriving DecidableEq, Repr

/-- The external synchronous lock primitive (the `R : RawRwLock` type
parameter of `FutureRawRwLock`): six operations over an abstract state
`S`, plus the initial state `INIT`.  The blocking variants are modelled
as state transformers; the try variants also return their boolean. -/
structure RawRwLockOps (S : Type) where
  INIT : S
  lock_shared : S → S
  try_lock_shared : S → Bool × S
  unlock_shared : S → S
  lock_exclusive : S → S
  try_lock_exclusive : S → Bool × S
  unlock_exclusive : S → S

/-- The state of a `FutureRawRwLock<R>` instance: the `locking` spinlock
flag, the `wakers` queue pointer (`none` = null), and the inner lock. -/
structure AdapterState (S : Type) where
  locking : Bool
  wakers : Option (List Waker)
  inner : S
  deriving DecidableEq, Repr

namespace FutureRawRwLock

variable {S : Type}

/-- `fn atomic_lock`: spin on `compare_and_swap(false, true)` until the
flag is acquired.  Sequentially, the loop terminates exactly when the
flag is initially clear; a run entered with the flag set spins forever
(`Err.spinDiverge`). -/
def atomic_lock (st : AdapterState S) : Except Err (AdapterState S × List Event) :=
  if st.locking then .error .spinDiverge
  else .ok ({ st with locking := true }, [.spinAcquire])

/-- `fn atomic_unlock`: store `false` into the flag. -/
def atomic_unlock (st : AdapterState S) : AdapterState S × List Event :=
  ({ st with locking := false }, [.spinRelease])

/-- `fn register_waker`: dereference the `wakers` pointer (null pointer
dereference when it was never created), push a clone of the waker, then
implicitly release the spinlock via `atomic_unlock`.  Note that this
function does not itself acquire the spinlock. -/
def register_waker (st : AdapterState S) (w : Waker) : Except Err (AdapterState S × List Event) :=
  match st.wakers with
  | none => .error .nullDeref
  | some q =>
      let st1 := { st with wakers := some (q ++ [w]) }
      let p := atomic_unlock st1
      .ok (p.1, Event.pushWaker w :: p.2)

/-- `fn create_wakers_list`: load the pointer; if null, allocate a fresh
empty queue and publish it with a single compare-and-swap.  (Allocation
identity and the creation race are modelled separately by `AllocState`
below; here only the queue contents matter.) -/
def create_wakers_list (st : AdapterState S) : AdapterState S :=
  match st.wakers with
  | none => { st with wakers := some [] }
  | some _ => st

/-- `fn wake_up`: acquire the spinlock, dereference the queue pointer
(null dereference when never created), pop at most one waker, invoke it
if one was popped, then release the spinlock.  The invocation `w.wake()`
happens before `atomic_unlock`, i.e. while the spinlock is still held. -/
def wake_up (st : AdapterState S) : Except Err (AdapterState S × List Event) :=
  match atomic_lock st with
  | .error e => .error e
  | .ok (st1, e1) =>
      match st1.wakers with
      | none => .error .nullDeref
      | some [] =>
          let p := atomic_unlock st1
          .ok (p.1, e1 ++ Event.popEmpty :: p.2)
      | some (w :: rest) =>
          let st2 := { st1 with wakers := some rest }
          let p := atomic_unlock st2
          .ok (p.1, e1 ++ Event.popWaker w :: Event.invokeWaker w :: p.2)

/-- `RawRwLock::INIT` for the adapter: flag clear, null queue pointer,
inner primitive in its own initial state. -/
def INIT (P : RawRwLockOps S) : AdapterState S :=
  { locking := false, wakers := none, inner := P.INIT }

/-- `fn lock_shared`: ensure the queue exists, then delegate. -/
def lock_shared (P : RawRwLockOps S) (st : AdapterState S) : AdapterState S × List Event :=
  let st1 := create_wakers_list st
  ({ st1 with inner := P.lock_shared st1.inner }, [.innerLockShared])

/-- `fn try_lock_shared`: ensure the queue exists, then delegate and
return the primitive's boolean unchanged. -/
def try_lock_shared (P : RawRwLockOps S) (st : AdapterState S) : Bool × AdapterState S × List Event :=
  let st1 := create_wakers_list st
  let r := P.try_lock_shared st1.inner
  (r.1, { st1 with inner := r.2 }, [.innerTryLockShared r.1])

/-- `fn unlock_shared`: delegate the release to the primitive first, then
perform `wake_up`. -/
def unlock_shared (P : RawRwLockOps S) (st : AdapterState S) : Except Err (AdapterState S × List Event) :=
  let st1 := { st with inner := P.unlock_shared st.inner }
  match wake_up st1 with
  | .error e => .error e
  | .ok (st2, evs) => .ok (st2, Event.innerUnlockShared :: evs)

/-- `fn lock_exclusive`: ensure the queue exists, then delegate. -/
def lock_exclusive (P : RawRwLockOps S) (st : AdapterState S) : AdapterState S × List Event :=
  let st1 := create_wakers_list st
  ({ st1 with inner := P.lock_exclusive st1.inner }, [.innerLockExclusive])

/-- `fn try_lock_exclusive`: ensure the queue exists, then delegate and
return the primitive's boolean unchanged. -/
def try_lock_exclusive (P : RawRwLockOps S) (st : AdapterState S) : Bool × AdapterState S × List Event :=
  let st1 := create_wakers_list st
  let r := P.try_lock_exclusive st1.inner
  (r.1, { st1 with inner := r.2 }, [.innerTryLockExclusive r.1])

/-- `fn unlock_exclusive`: delegate the release to the primitive first,
then perform `wake_up`. -/
def unlock_exclusive (P : RawRwLockOps S) (st : AdapterState S) : Except Err (AdapterState S × List Event) :=
  let st1 := { st with inner := P.unlock_exclusive st.inner }
  match wake_up st1 with
  | .error e => .error e
  | .ok (st2, evs) => .ok (st2, Event.innerUnlockExclusive :: evs)

/-- Modelled from the spec: the register-for-wakeup operation (spec 4.2).
The suspension wrappers that drive it (src/rwlock/read.rs, write.rs,
upgradable_read.rs) are not under src/; the spec describes the operation
as: acquire the spinlock, push the waker, release the spinlock.  It is
the composition of the source functions `atomic_lock` and
`register_waker` (whose trailing `atomic_unlock` is the release step). -/
def registerForWakeup (st : AdapterState S) (w : Waker) : Except Err (AdapterState S × List Event) :=
  match atomic_lock st with
  | .error e => .error e
  | .ok (st1, e1) =>
      match register_waker st1 w with
      | .error e => .error e
      | .ok (st2, e2) => .ok (st2, e1 ++ e2)

end FutureRawRwLock

/-- Modelled from the spec: a concrete instance of the external
collaborator contract of spec 4.1 (the primitive itself, `parking_lot`,
is outside this repository).  Reader count plus writer flag with standard
reader/writer semantics; used to instantiate witnesses. -/
abbrev RwCount : Type := Nat × Bool

/-- Modelled from the spec: the six operations of spec 4.1 on `RwCount`.
Blocking acquires are modelled by their effect when the grant is
possible; the try variants fail without effect otherwise. -/
def specPrim : RawRwLockOps RwCount where
  INIT := (0, false)
  lock_shared s := (s.1 + 1, s.2)
  try_lock_shared s := if s.2 then (false, s) else (true, (s.1 + 1, s.2))
  unlock_shared s := (s.1 - 1, s.2)
  lock_exclusive s := (s.1, true)
  try_lock_exclusive s := if s.2 || s.1 ≠ 0 then (false, s) else (true, (s.1, true))
  unlock_exclusive s := (s.1, false)

/-- Replays a trace while tracking the spinlock flag (initial value given
by the second argument) and checks that every waker invocation happens
while the spinlock is NOT held, i.e. outside the spinlock. -/
def invokesOutsideSpin : List Event → Bool → Bool
  | [], _ => true
  | Event.spinAcquire :: es, _ => invokesOutsideSpin es true
  | Event.spinRelease :: es, _ => invokesOutsideSpin es false
  | Event.invokeWaker _ :: es, held => !held && invokesOutsideSpin es held
  | _ :: es, held => invokesOutsideSpin es held

/-- Is this event a delegation to the inner primitive? -/
def isInnerEvent : Event → Bool
  | .innerLockShared => true
  | .innerTryLockShared _ => true
  | .innerUnlockShared => true
  | .innerLockExclusive => true
  | .innerTryLockExclusive _ => true
  | .innerUnlockExclusive => true
  | _ => false

/-- Number of delegations to the inner primitive in a trace. -/
def countInner (tr : List Event) : Nat := (tr.filter isInnerEvent).length

/-- Number of waker invocations in a trace. -/
def countInvoked (tr : List Event) : Nat :=
  (tr.filter (fun e => match e with | Event.invokeWaker _ => true | _ => false)).length

/-!
Allocation-level model of queue creation and destruction.

`create_wakers_list` allocates with `Box::new`, publishes with
`Box::into_raw` through a single `compare_and_swap`, and ignores the CAS
result; `Drop::drop` reconstitutes the `Box` from the published pointer
(if non-null) and frees it.  To reason about leaks and double frees we
track allocation identities: `nextId` numbers allocations, `live` holds
the allocated-and-not-freed ids, `freed` the freed ids in order, and
`installed` is the value of the `wakers` `AtomicPtr` (`none` = null).
-/

structure AllocState where
  nextId : Nat
  live : List Nat
  freed : List Nat
  installed : Option Nat
  deriving DecidableEq, Repr

/-- `Box::new(SegQueue::new())`: a fresh allocation. -/
def allocQueue (h : AllocState) : Nat × AllocState :=
  (h.nextId, { h with nextId := h.nextId + 1, live := h.live ++ [h.nextId] })

/-- Reconstituting and dropping the `Box`: frees the allocation. -/
def freeQueue (h : AllocState) (a : Nat) : AllocState :=
  { h with live := h.live.erase a, freed := h.freed ++ [a] }

/-- `self.wakers.compare_and_swap(expected, newPtr, ...)`: installs
`newPtr` only when the current value equals `expected`; the returned
previous value is ignored by the source, so a failed CAS leaves the new
allocation unreferenced. -/
def casWakers (h : AllocState) (expected : Option Nat) (newPtr : Nat) : AllocState :=
  if h.installed = expected then { h with installed := some newPtr } else h

/-- `fn create_wakers_list` at pointer granularity: load the pointer; if
null, allocate and publish with one CAS. -/
def create_wakers_list_alloc (h : AllocState) : AllocState :=
  match h.installed with
  | some _ => h
  | none =>
      let p := allocQueue h
      casWakers p.2 none p.1

/-- `Drop for FutureRawRwLock`: load the pointer; if non-null, rebuild
the `Box` from it and free it. -/
def drop_adapter (h : AllocState) : AllocState :=
  match h.installed with
  | none => h
  | some a => freeQueue h a

/-- A fresh adapter instance: nothing allocated, null pointer. -/
def allocInit : AllocState := { nextId := 0, live := [], freed := [], installed := none }

/-- The creation race, at the granularity of the individual atomic steps
of `create_wakers_list`: creators A and B both load the null pointer;
then B allocates and CASes (installing its queue); then A allocates and
CASes (failing, because the pointer is no longer null).  This is a
faithful interleaving of two concurrent `create_wakers_list` calls. -/
def raceLoserExec : AllocState :=
  let pB := allocQueue allocInit
  let h2 := casWakers pB.2 none pB.1
  let pA := allocQueue h2
  casWakers pA.2 none pA.1

/-!
Interleaving model of the missed-wakeup race (spec 4.2, claim C1).

Two threads run against a shared state: a task T that has just observed
a failed try-acquire (so the inner lock is held) and now performs
register-for-wakeup, and a releaser R that performs an unlock.  Their
atomic steps, in program order:

  T (register-for-wakeup, modelled from the spec since the suspension
  wrappers are not under src/):
    t0  acquire the spinlock        (enabled only when the flag is clear)
    t1  push the waker w0
    t2  release the spinlock; registration is complete — we snapshot
        whether the inner lock is already free at this point (a fresh
        retry at this moment would succeed)

  R (`unlock_*` followed by `wake_up`, from the source):
    r0  delegate the release to the inner primitive (inner becomes free)
    r1  acquire the spinlock        (enabled only when the flag is clear)
    r2  pop at most one waker
    r3  invoke the popped waker, if any
    r4  release the spinlock

A schedule is a list of booleans (`true` = step T, `false` = step R).
Scheduling a thread whose next step is a blocked spinlock acquire, or a
thread that has finished, yields `none`; since a spinning CAS loop does
not change the shared state, every real execution's state trajectory is
the trajectory of one of the schedules in which each entry makes
progress, so quantifying over all completing schedules of length 8
covers all interleavings. -/

structure RaceState where
  spin : Bool
  queue : List Waker
  innerLocked : Bool
  invoked : List Waker
  popped : Option Waker
  tPC : Nat
  rPC : Nat
  regDoneInnerFree : Bool
  deriving DecidableEq, Repr

/-- The registered waker of task T in the race model. -/
def w0 : Waker := 0

/-- One step of the registering task T. -/
def tStep (s : RaceState) : Option RaceState :=
  match s.tPC with
  | 0 => if s.spin then none else some { s with spin := true, tPC := 1 }
  | 1 => some { s with queue := s.queue ++ [w0], tPC := 2 }
  | 2 => some { s with spin := false, regDoneInnerFree := !s.innerLocked, tPC := 3 }
  | _ => none

/-- One step of the releasing thread R. -/
def rStep (s : RaceState) : Option RaceState :=
  match s.rPC with
  | 0 => some { s with innerLocked := false, rPC := 1 }
  | 1 => if s.spin then none else some { s with spin := true, rPC := 2 }
  | 2 =>
      match s.queue with
      | [] => some { s with popped := none, rPC := 3 }
      | w :: rest => some { s with queue := rest, popped := some w, rPC := 3 }
  | 3 =>
      match s.popped with
      | some w => some { s with invoked := s.invoked ++ [w], rPC := 4 }
      | none => some { s with rPC := 4 }
  | 4 => some { s with spin := false, rPC := 5 }
  | _ => none

/-- Run one scheduled step (`true` = T, `false` = R). -/
def raceStep (tag : Bool) (s : RaceState) : Option RaceState :=
  if tag then tStep s else rStep s

/-- Run a schedule from a state; `none` when some scheduled step cannot
make progress. -/
def raceRun : List Bool → RaceState → Option RaceState
  | [], s => some s
  | tag :: rest, s =>
      match raceStep tag s with
      | none => none
      | some s1 => raceRun rest s1

/-- Initial race state: T's try-acquire has just failed, so the inner
lock is held; the spinlock is free and the queue empty. -/
def raceInit : RaceState :=
  { spin := false, queue := [], innerLocked := true, invoked := [],
    popped := none, tPC := 0, rPC := 0, regDoneInnerFree := false }

/-- The guarantee checked per schedule: if the schedule completes (which,
for a length-8 schedule, forces both threads to finish all their steps),
then either T's waker was invoked, or the inner lock was already free at
the instant T completed registration (so T's immediately following retry
would succeed). -/
def raceGuaranteed (sched : List Bool) : Bool :=
  match raceRun sched raceInit with
  | none => true
  | some fin => fin.invoked.contains w0 || fin.regDoneInnerFree

/-- All boolean lists of length n: the schedule space. -/
def allBoolLists : Nat → List (List Bool)
  | 0 => [[]]
  | n + 1 =>
      (allBoolLists n).map (fun l => true :: l) ++
        (allBoolLists n).map (fun l => false :: l)

/-- A concrete adapter state with one queued waker (id 7) and one shared
hold on a concrete inner primitive; used to exhibit the trace of a
release. -/
def c2CexSt : AdapterState RwCount :=
  { locking := false, wakers := some [7], inner := (1, false) }

/-- The event trace produced by `unlock_shared` on `c2CexSt`. -/
def c2CexTrace : List Event :=
  match FutureRawRwLock.unlock_shared specPrim c2CexSt with
  | .ok p => p.2
  | .error _ => []


/-- Claim C1: no lost wakeup.  Over every interleaving of a task that
registers for wakeup after a failed try-acquire with a concurrent
release (all schedules of the race model that complete both threads),
the task is guaranteed either a delivered wakeup (its waker is popped
and invoked by the release) or a registration-complete instant at which
the inner lock is already free, so its fresh retry succeeds — never
neither.  The serialization of push and pop through the single spinlock
is what excludes every other outcome. -/
theorem C1_no_lost_wakeup : ∀ sched ∈ allBoolLists 8, raceGuaranteed sched = true := by
  decide

/-- Witness for C1 at the schedule where the task registers first and
the release then delivers the wakeup. -/
theorem C1_no_lost_wakeup_witness :
    raceGuaranteed [true, true, true, false, false, false, false, false] = true :=
  C1_no_lost_wakeup [true, true, true, false, false, false, false, false] (by decide)

/-- Counterexample to claim C2 as stated: on the concrete state
`c2CexSt` (one queued waker, id 7), `unlock_shared` delegates to the
inner primitive and wakes exactly one waiter, but the invocation of the
popped waker happens BEFORE the spinlock release, i.e. while the
spinlock is still held — refuting the claim that the popped waker is
invoked outside the spinlock. -/
theorem C2_release_wakeup_counterexample :
    c2CexTrace = [Event.innerUnlockShared, Event.spinAcquire, Event.popWaker 7,
      Event.invokeWaker 7, Event.spinRelease]
    ∧ countInvoked c2CexTrace = 1
    ∧ invokesOutsideSpin c2CexTrace false = false := by
  decide

/-- Claim C2, amended: every release operation first delegates the
release to the inner primitive and then performs wake-up, which
acquires the spinlock, pops at most one waker (none if the queue is
empty), invokes the popped waker, if present, while still holding the
spinlock, and finally releases the spinlock; exactly one waiter is
woken per release when any are queued, never more. -/
theorem C2_release_wakeup_amended {S : Type} (P : RawRwLockOps S) (st : AdapterState S)
    (q : List Waker) (hw : st.wakers = some q) (hl : st.locking = false) :
    (q = [] →
      FutureRawRwLock.unlock_shared P st =
        .ok ({ locking := false, wakers := some [], inner := P.unlock_shared st.inner },
          [Event.innerUnlockShared, Event.spinAcquire, Event.popEmpty, Event.spinRelease])
      ∧ FutureRawRwLock.unlock_exclusive P st =
        .ok ({ locking := false, wakers := some [], inner := P.unlock_exclusive st.inner },
          [Event.innerUnlockExclusive, Event.spinAcquire, Event.popEmpty, Event.spinRelease]))
    ∧ (∀ w rest, q = w :: rest →
      FutureRawRwLock.unlock_shared P st =
        .ok ({ locking := false, wakers := some rest, inner := P.unlock_shared st.inner },
          [Event.innerUnlockShared, Event.spinAcquire, Event.popWaker w,
            Event.invokeWaker w, Event.spinRelease])
      ∧ FutureRawRwLock.unlock_exclusive P st =
        .ok ({ locking := false, wakers := some rest, inner := P.unlock_exclusive st.inner },
          [Event.innerUnlockExclusive, Event.spinAcquire, Event.popWaker w,
            Event.invokeWaker w, Event.spinRelease])) := by
  obtain ⟨l, ws, i⟩ := st
  cases hl
  cases hw
  refine ⟨fun hq => ?_, fun w rest hq => ?_⟩
  · cases hq; exact ⟨rfl, rfl⟩
  · cases hq; exact ⟨rfl, rfl⟩

/-- Witness for the amended C2 on `c2CexSt`. -/
theorem C2_release_wakeup_amended_witness :
    FutureRawRwLock.unlock_shared specPrim c2CexSt =
      .ok ({ locking := false, wakers := some [], inner := (0, false) },
        [Event.innerUnlockShared, Event.spinAcquire, Event.popWaker 7,
          Event.invokeWaker 7, Event.spinRelease]) :=
  ((C2_release_wakeup_amended specPrim c2CexSt [7] rfl rfl).2 7 [] rfl).1

/-- Claim C3: register-for-wakeup performs exactly: (1) acquire the
spinlock, (2) push the waker onto the queue, (3) release the spinlock.
The trace shows the push strictly between spinlock acquire and release,
and the resulting state has the spinlock released. -/
theorem C3_register_for_wakeup {S : Type} (st : AdapterState S) (w : Waker)
    (q : List Waker) (hl : st.locking = false) (hw : st.wakers = some q) :
    FutureRawRwLock.registerForWakeup st w =
      .ok ({ locking := false, wakers := some (q ++ [w]), inner := st.inner },
        [Event.spinAcquire, Event.pushWaker w, Event.spinRelease]) := by
  obtain ⟨l, ws, i⟩ := st
  cases hl
  cases hw
  rfl

/-- Witness for C3: registering waker 5 on an empty queue. -/
theorem C3_register_for_wakeup_witness :
    FutureRawRwLock.registerForWakeup (S := RwCount)
        { locking := false, wakers := some [], inner := (0, false) } 5 =
      .ok ({ locking := false, wakers := some [5], inner := (0, false) },
        [Event.spinAcquire, Event.pushWaker 5, Event.spinRelease]) :=
  C3_register_for_wakeup { locking := false, wakers := some [], inner := (0, false) } 5 [] rfl rfl

/-- Claim C4: both try variants, on every adapter state, first ensure
the queue exists (after the call the queue pointer is non-null; when it
already exists the check-and-create is a no-op) and then delegate to
the corresponding primitive operation, returning the primitive's
boolean result unchanged (and applying its effect to the inner state
unchanged). -/
theorem C4_try_variants {S : Type} (P : RawRwLockOps S) (st : AdapterState S) :
    ((FutureRawRwLock.try_lock_shared P st).2.1.wakers.isSome = true
      ∧ (FutureRawRwLock.try_lock_shared P st).1 = (P.try_lock_shared st.inner).1
      ∧ (FutureRawRwLock.try_lock_shared P st).2.1.inner = (P.try_lock_shared st.inner).2)
    ∧ ((FutureRawRwLock.try_lock_exclusive P st).2.1.wakers.isSome = true
      ∧ (FutureRawRwLock.try_lock_exclusive P st).1 = (P.try_lock_exclusive st.inner).1
      ∧ (FutureRawRwLock.try_lock_exclusive P st).2.1.inner = (P.try_lock_exclusive st.inner).2)
    ∧ (∀ q, st.wakers = some q → FutureRawRwLock.create_wakers_list st = st) := by
  obtain ⟨l, ws, i⟩ := st
  cases ws <;>
    simp [FutureRawRwLock.try_lock_shared, FutureRawRwLock.try_lock_exclusive,
      FutureRawRwLock.create_wakers_list]

/-- Witness for C4 on a state whose queue already exists. -/
theorem C4_try_variants_witness :
    (FutureRawRwLock.try_lock_shared specPrim
        { locking := false, wakers := some [3], inner := (0, false) }).1 = true
    ∧ FutureRawRwLock.create_wakers_list (S := RwCount)
        { locking := false, wakers := some [3], inner := (0, false) } =
      { locking := false, wakers := some [3], inner := (0, false) } :=
  ⟨(C4_try_variants specPrim
      { locking := false, wakers := some [3], inner := (0, false) }).1.2.1,
   (C4_try_variants specPrim
      { locking := false, wakers := some [3], inner := (0, false) }).2.2 [3] rfl⟩

/-- Counterexample to claim C5 as stated: in the creation race where
creators A and B both load a null pointer, B installs its allocation
(id 0) with a successful compare-and-swap, and A's compare-and-swap
then fails, A's allocation (id 1) is NOT discarded: it is still live
after adapter destruction (only the installed queue, id 0, is freed) —
the losing creator's allocation is leaked, refuting the "discarded (not
leaked)" part of the claim. -/
theorem C5_queue_created_once_counterexample :
    raceLoserExec.installed = some 0
    ∧ raceLoserExec.live = [0, 1]
    ∧ drop_adapter raceLoserExec =
        { nextId := 2, live := [1], freed := [0], installed := some 0 } := by
  decide

/-- Claim C5, amended: the queue is created at most once (once the
pointer is non-null, create-if-absent is the identity and never
replaces it, and after any create the pointer is non-null); the race
between concurrent creators is resolved by a single compare-and-swap
(the first CAS wins and stays installed), but the losing creator's
allocation is leaked — never freed, even by adapter destruction —
rather than discarded. -/
theorem C5_queue_created_once_amended :
    (∀ h : AllocState, ∀ a, h.installed = some a → create_wakers_list_alloc h = h)
    ∧ (∀ h : AllocState, (create_wakers_list_alloc h).installed.isSome = true)
    ∧ raceLoserExec.installed = some 0
    ∧ (drop_adapter raceLoserExec).live = [1]
    ∧ (drop_adapter raceLoserExec).freed = [0] := by
  refine ⟨?_, ?_, by decide, by decide, by decide⟩
  · intro h a ha
    obtain ⟨n, lv, fr, inst⟩ := h
    cases ha
    rfl
  · intro h
    obtain ⟨n, lv, fr, inst⟩ := h
    cases inst <;> simp [create_wakers_list_alloc, allocQueue, casWakers]

/-- Witness for the amended C5: create-if-absent is the identity on an
instance whose queue (id 0) is already installed. -/
theorem C5_queue_created_once_amended_witness :
    create_wakers_list_alloc
        { nextId := 1, live := [0], freed := [], installed := some 0 } =
      { nextId := 1, live := [0], freed := [], installed := some 0 } :=
  C5_queue_created_once_amended.1
    { nextId := 1, live := [0], freed := [], installed := some 0 } 0 rfl

/-- Claim C6: the adapter is a transparent substitute for the wrapped
primitive: each of the six operations performs exactly one delegation
to the inner primitive's operation of the same name (the trace contains
exactly one inner event), its effect on the inner lock state is
identical to calling the primitive directly, and the try variants
return the primitive's boolean unchanged. -/
theorem C6_transparent_substitute {S : Type} (P : RawRwLockOps S) (st : AdapterState S)
    (q : List Waker) (hw : st.wakers = some q) (hl : st.locking = false) :
    ((FutureRawRwLock.lock_shared P st).1.inner = P.lock_shared st.inner
      ∧ countInner (FutureRawRwLock.lock_shared P st).2 = 1)
    ∧ ((FutureRawRwLock.try_lock_shared P st).1 = (P.try_lock_shared st.inner).1
      ∧ (FutureRawRwLock.try_lock_shared P st).2.1.inner = (P.try_lock_shared st.inner).2
      ∧ countInner (FutureRawRwLock.try_lock_shared P st).2.2 = 1)
    ∧ (∃ st2 tr, FutureRawRwLock.unlock_shared P st = .ok (st2, tr)
      ∧ st2.inner = P.unlock_shared st.inner ∧ countInner tr = 1)
    ∧ ((FutureRawRwLock.lock_exclusive P st).1.inner = P.lock_exclusive st.inner
      ∧ countInner (FutureRawRwLock.lock_exclusive P st).2 = 1)
    ∧ ((FutureRawRwLock.try_lock_exclusive P st).1 = (P.try_lock_exclusive st.inner).1
      ∧ (FutureRawRwLock.try_lock_exclusive P st).2.1.inner = (P.try_lock_exclusive st.inner).2
      ∧ countInner (FutureRawRwLock.try_lock_exclusive P st).2.2 = 1)
    ∧ (∃ st2 tr, FutureRawRwLock.unlock_exclusive P st = .ok (st2, tr)
      ∧ st2.inner = P.unlock_exclusive st.inner ∧ countInner tr = 1) := by
  obtain ⟨l, ws, i⟩ := st
  cases hl
  cases hw
  cases q with
  | nil =>
      exact ⟨⟨rfl, rfl⟩, ⟨rfl, rfl, rfl⟩, ⟨_, _, rfl, rfl, rfl⟩,
        ⟨rfl, rfl⟩, ⟨rfl, rfl, rfl⟩, ⟨_, _, rfl, rfl, rfl⟩⟩
  | cons w rest =>
      exact ⟨⟨rfl, rfl⟩, ⟨rfl, rfl, rfl⟩, ⟨_, _, rfl, rfl, rfl⟩,
        ⟨rfl, rfl⟩, ⟨rfl, rfl, rfl⟩, ⟨_, _, rfl, rfl, rfl⟩⟩

/-- Witness for C6: a shared acquire through the adapter has the same
effect on the inner lock as the primitive applied directly. -/
theorem C6_transparent_substitute_witness :
    (FutureRawRwLock.lock_shared specPrim
        { locking := false, wakers := some [], inner := (0, false) }).1.inner = (1, false) :=
  (C6_transparent_substitute specPrim
      { locking := false, wakers := some [], inner := (0, false) } [] rfl rfl).1.1

/-- Claim C7: destruction releases the queue exactly once if it was
ever created, and releases nothing when the queue was never created:
a fresh instance is dropped without any free, and a created-then-
dropped instance ends with its single allocation freed exactly once
and nothing live — no double-free and no leak in either case. -/
theorem C7_destruction :
    (∀ h : AllocState, h.installed = none → drop_adapter h = h)
    ∧ (∀ h : AllocState, ∀ a, h.installed = some a →
        (drop_adapter h).freed = h.freed ++ [a]
        ∧ (drop_adapter h).live = h.live.erase a)
    ∧ drop_adapter allocInit = allocInit
    ∧ (drop_adapter (create_wakers_list_alloc allocInit)).live = []
    ∧ (drop_adapter (create_wakers_list_alloc allocInit)).freed = [0] := by
  refine ⟨?_, ?_, by decide, by decide, by decide⟩
  · intro h hn
    obtain ⟨n, lv, fr, inst⟩ := h
    cases hn
    rfl
  · intro h a ha
    obtain ⟨n, lv, fr, inst⟩ := h
    cases ha
    exact ⟨rfl, rfl⟩

/-- Witness for C7: dropping a fresh instance frees nothing, and
dropping an instance with installed queue id 0 frees it once. -/
theorem C7_destruction_witness :
    drop_adapter allocInit = allocInit
    ∧ (drop_adapter { nextId := 1, live := [0], freed := [], installed := some 0 }).freed = [0] :=
  ⟨C7_destruction.1 allocInit rfl,
   (C7_destruction.2.1 { nextId := 1, live := [0], freed := [], installed := some 0 } 0 rfl).1⟩

/-- Claim C8: given that the queue has been created, wake-up on an
empty queue is a no-op and not an error — no waker is invoked and the
resulting state is exactly the initial one (the spinlock is transiently
taken and released within the call) — and pushing a waker never fails,
for a queue of any length. -/
theorem C8_empty_wakeup_noop_push_total {S : Type} (st : AdapterState S)
    (q : List Waker) (w : Waker) (hl : st.locking = false) (hw : st.wakers = some q) :
    (q = [] →
      FutureRawRwLock.wake_up st =
        .ok (st, [Event.spinAcquire, Event.popEmpty, Event.spinRelease]))
    ∧ FutureRawRwLock.register_waker st w =
        .ok ({ locking := false, wakers := some (q ++ [w]), inner := st.inner },
          [Event.pushWaker w, Event.spinRelease]) := by
  obtain ⟨l, ws, i⟩ := st
  cases hl
  cases hw
  refine ⟨fun hq => ?_, rfl⟩
  cases hq
  rfl

/-- Witness for C8: wake-up on an empty queue is the identity, and a
push on a length-two queue succeeds. -/
theorem C8_empty_wakeup_noop_push_total_witness :
    FutureRawRwLock.wake_up (S := RwCount)
        { locking := false, wakers := some [], inner := (0, false) } =
      .ok ({ locking := false, wakers := some [], inner := (0, false) },
        [Event.spinAcquire, Event.popEmpty, Event.spinRelease])
    ∧ FutureRawRwLock.register_waker (S := RwCount)
        { locking := false, wakers := some [1, 2], inner := (0, false) } 9 =
      .ok ({ locking := false, wakers := some [1, 2, 9], inner := (0, false) },
        [Event.pushWaker 9, Event.spinRelease]) :=
  ⟨(C8_empty_wakeup_noop_push_total
      { locking := false, wakers := some [], inner := (0, false) } [] 9 rfl rfl).1 rfl,
   (C8_empty_wakeup_noop_push_total
      { locking := false, wakers := some [1, 2], inner := (0, false) } [1, 2] 9 rfl rfl).2⟩

/-- Claim C9 (implicit): the release operations dereference the queue
pointer unconditionally inside wake_up: on a freshly initialized
adapter (INIT, null queue pointer) both unlock_shared and
unlock_exclusive perform a null-pointer dereference, while on any state
whose queue was already created neither can null-dereference. -/
theorem C9_release_null_deref_on_fresh {S : Type} (P : RawRwLockOps S) :
    (FutureRawRwLock.unlock_shared P (FutureRawRwLock.INIT P) = .error Err.nullDeref
      ∧ FutureRawRwLock.unlock_exclusive P (FutureRawRwLock.INIT P) = .error Err.nullDeref)
    ∧ (∀ st : AdapterState S, ∀ q, st.wakers = some q →
        FutureRawRwLock.unlock_shared P st ≠ .error Err.nullDeref
        ∧ FutureRawRwLock.unlock_exclusive P st ≠ .error Err.nullDeref) := by
  refine ⟨⟨rfl, rfl⟩, ?_⟩
  intro st q hw
  obtain ⟨l, ws, i⟩ := st
  cases hw
  cases l <;> cases q <;>
    simp [FutureRawRwLock.unlock_shared, FutureRawRwLock.unlock_exclusive,
      FutureRawRwLock.wake_up, FutureRawRwLock.atomic_lock, FutureRawRwLock.atomic_unlock]

/-- Witness for C9: a release on the fresh adapter null-dereferences; a
release after the queue exists does not. -/
theorem C9_release_null_deref_on_fresh_witness :
    FutureRawRwLock.unlock_shared specPrim (FutureRawRwLock.INIT specPrim) =
      .error Err.nullDeref
    ∧ FutureRawRwLock.unlock_shared specPrim
        { locking := false, wakers := some [], inner := (1, false) } ≠
      .error Err.nullDeref :=
  ⟨(C9_release_null_deref_on_fresh specPrim).1.1,
   ((C9_release_null_deref_on_fresh specPrim).2
      { locking := false, wakers := some [], inner := (1, false) } [] rfl).1⟩

/-- Claim C10 (implicit frame property): once the queue exists, every
acquire operation leaves the queue contents and the spinlock flag
unchanged; the queue contents are modified only by register_waker
(exactly one push per call) and wake_up (at most one pop per call: the
head is removed when the queue is non-empty, nothing otherwise). -/
theorem C10_acquire_frame {S : Type} (P : RawRwLockOps S) (st : AdapterState S)
    (q : List Waker) (w : Waker) (hw : st.wakers = some q) :
    ((FutureRawRwLock.lock_shared P st).1.wakers = some q
      ∧ (FutureRawRwLock.lock_shared P st).1.locking = st.locking
      ∧ (FutureRawRwLock.try_lock_shared P st).2.1.wakers = some q
      ∧ (FutureRawRwLock.try_lock_shared P st).2.1.locking = st.locking
      ∧ (FutureRawRwLock.lock_exclusive P st).1.wakers = some q
      ∧ (FutureRawRwLock.lock_exclusive P st).1.locking = st.locking
      ∧ (FutureRawRwLock.try_lock_exclusive P st).2.1.wakers = some q
      ∧ (FutureRawRwLock.try_lock_exclusive P st).2.1.locking = st.locking)
    ∧ (FutureRawRwLock.register_waker st w =
        .ok ({ locking := false, wakers := some (q ++ [w]), inner := st.inner },
          [Event.pushWaker w, Event.spinRelease]))
    ∧ (st.locking = false →
        ∀ st2 tr, FutureRawRwLock.wake_up st = .ok (st2, tr) →
          st2.wakers = some q.tail) := by
  obtain ⟨l, ws, i⟩ := st
  cases hw
  refine ⟨⟨rfl, rfl, rfl, rfl, rfl, rfl, rfl, rfl⟩, rfl, ?_⟩
  intro hl st2 tr h
  cases hl
  cases q with
  | nil =>
      cases h
      rfl
  | cons x rest =>
      cases h
      rfl

/-- Witness for C10: a try-acquire leaves the queue untouched, and
wake-up pops exactly the head. -/
theorem C10_acquire_frame_witness :
    (FutureRawRwLock.try_lock_exclusive specPrim
        { locking := false, wakers := some [4, 5], inner := (0, false) }).2.1.wakers =
      some [4, 5]
    ∧ FutureRawRwLock.register_waker (S := RwCount)
        { locking := false, wakers := some [4, 5], inner := (0, false) } 6 =
      .ok ({ locking := false, wakers := some [4, 5, 6], inner := (0, false) },
        [Event.pushWaker 6, Event.spinRelease]) :=
  ⟨(C10_acquire_frame specPrim
      { locking := false, wakers := some [4, 5], inner := (0, false) } [4, 5] 6 rfl).1.2.2.2.2.2.2.1,
   (C10_acquire_frame specPrim
      { locking := false, wakers := some [4, 5], inner := (0, false) } [4, 5] 6 rfl).2.1⟩
